import Mathlib

/-
Verification of the child-exit-wait bridge (trio_asyncio/child.py, POSIX
branch).  The Python module is shallowly embedded: the wait-status decoder
is a pure function, the per-process ProcessWaiter becomes an explicit
state record, the OS (os.waitpid) is an oracle supplying one response per
status call, and the weak-value registry _children is an association list
from pid to waiter index.  Asynchrony is modelled at await-point
granularity: wait() is split into the synchronous prefix up to its first
suspension (waitEnter) and the resumption after the completion event
(waitWake); the background thread body _wait_thread is one atomic step.
-/

/- ## Wait-status decoding

os.WIFSIGNALED / WIFEXITED / WIFSTOPPED and the corresponding accessors
delegate to the platform C library; we embed the POSIX (glibc) wait-status
bit layout: low 7 bits are the terminating signal (0 for normal exit,
0x7f for stopped), bits 8..15 carry the exit code or stop signal. -/

def WIFSIGNALED (status : Nat) : Bool :=
  decide (0 < status % 128) && decide (status % 128 < 127)

def WTERMSIG (status : Nat) : Nat := status % 128

def WIFEXITED (status : Nat) : Bool := status % 128 == 0

def WEXITSTATUS (status : Nat) : Nat := status / 256 % 256

def WIFSTOPPED (status : Nat) : Bool := status % 256 == 127

def WSTOPSIG (status : Nat) : Nat := status / 256 % 256

/-- Failures a waiter can store: UnknownStatus(status) raised by
_compute_returncode (a ChildProcessError subclass), and the plain
ChildProcessError wrapped in the module-level NOT_FOUND result. -/
inductive WaitError where
  | unknownStatus (status : Nat)
  | notFound
deriving DecidableEq, Repr

/-- Embedding of _compute_returncode: checks WIFSIGNALED, then WIFEXITED,
then WIFSTOPPED, in that order; raising UnknownStatus is the error case. -/
def _compute_returncode (status : Nat) : Except WaitError Int :=
  if WIFSIGNALED status then Except.ok (-(WTERMSIG status : Int))
  else if WIFEXITED status then Except.ok ((WEXITSTATUS status : Int))
  else if WIFSTOPPED status then Except.ok (-(WSTOPSIG status : Int))
  else Except.error (WaitError.unknownStatus status)

/- ## trio.hazmat.Result values stored in ProcessWaiter.__result -/

/-- Model of trio.hazmat.Result: a captured value or a captured error. -/
inductive Result where
  | value (v : Int)
  | error (e : WaitError)
deriving DecidableEq, Repr

/-- Model of the module-level NOT_FOUND = trio.hazmat.Error(ChildProcessError()). -/
def NOT_FOUND : Result := Result.error WaitError.notFound

/-- trio.hazmat.Result.capture applied to _compute_returncode, as used in
_handle_exitstatus. -/
def Result.capture (x : Except WaitError Int) : Result :=
  match x with
  | Except.ok v => Result.value v
  | Except.error e => Result.error e

/- ## Python-level values and errors -/

/-- A Python value supplied as the pid argument: an int, None, or any
other object (isinstance(pid, int) holds only for the first). -/
inductive PyVal where
  | pyInt (n : Int)
  | pyNone
  | pyOther
deriving DecidableEq, Repr

/-- RuntimeErrors raised by the module provide distinct messages; we model
them as an enumeration in source order. -/
inductive MisuseError where
  | pidAlreadySet
  | pidNotInteger
  | handleOnWindowsOnly
  | noPidToWait
deriving DecidableEq, Repr

/-- Response of one os.waitpid call on a specific pid: the call raises
ChildProcessError, reports the child still alive (returned pid 0, only
under WNOHANG), or returns a wait status. -/
inductive OsResp where
  | childError
  | stillAlive
  | exited (status : Nat)
deriving DecidableEq, Repr

/-- Observable outcome of one step of wait(): a returned value, a raised
stored failure, a RuntimeError, suspension on the completion event,
unwrap of an absent result (AttributeError), a failed assert, or a
worker-thread step with no caller-visible output. -/
inductive WaitOut where
  | ret (v : Int)
  | raised (e : WaitError)
  | misuse (e : MisuseError)
  | suspendedOn
  | unwrapNone
  | assertFail
  | workerDone
deriving DecidableEq, Repr

/-- Observable outcome of the returncode property: the None sentinel, a
returned value, or a re-raised stored failure. -/
inductive PeekOut where
  | sentinelNone
  | ret (v : Int)
  | raised (e : WaitError)
deriving DecidableEq, Repr

/- ## The _children weak-value registry -/

/-- The registry maps a pid to the index of the waiter stored for it. -/
abbrev Reg := List (Int × Nat)

def regGet (reg : Reg) (p : Int) : Option Nat :=
  (reg.find? (fun e => e.1 == p)).map (fun e => e.2)

def regSet (reg : Reg) (p : Int) (wid : Nat) : Reg :=
  (p, wid) :: reg.filter (fun e => e.1 != p)

def regDel (reg : Reg) (p : Int) : Reg :=
  reg.filter (fun e => e.1 != p)

/- ## ProcessWaiter state -/

/-- The mutable attributes of one ProcessWaiter relevant to waiting:
__pid, __result, whether __thread has been set (a worker was started),
and whether the trio Event __event has been set.  The POSIX branch is
embedded, so there is no handle attribute (binding one raises). -/
structure WaiterState where
  pid : Option Int
  result : Option Result
  thread : Bool
  eventSet : Bool
deriving DecidableEq, Repr

/-- A freshly allocated ProcessWaiter object: all class attributes None. -/
def initWaiter : WaiterState :=
  { pid := none, result := none, thread := false, eventSet := false }

/-- Result of _set_pid: the error raised (if any) together with the
waiter state and registry after the call; the handleOnWindowsOnly error
is raised after the pid has been bound and the waiter registered. -/
structure SetR where
  err : Option MisuseError
  w : WaiterState
  reg : Reg
deriving DecidableEq, Repr

/-- Embedding of ProcessWaiter._set_pid on a non-Windows platform
(_mswindows = False): rebinding raises, a non-int pid raises, otherwise
the pid is bound and the waiter stored in _children; a handle argument
then raises RuntimeError (after those two mutations). -/
def _set_pid (pid : PyVal) (handle : Option Unit) (wid : Nat)
    (w : WaiterState) (reg : Reg) : SetR :=
  if w.pid.isSome then { err := some MisuseError.pidAlreadySet, w := w, reg := reg }
  else
    match pid with
    | PyVal.pyInt n =>
      let w' := { w with pid := some n }
      let reg' := regSet reg n wid
      match handle with
      | some _ => { err := some MisuseError.handleOnWindowsOnly, w := w', reg := reg' }
      | none => { err := none, w := w', reg := reg' }
    | _ => { err := some MisuseError.pidNotInteger, w := w, reg := reg }

/-- Embedding of the POSIX ProcessWaiter._wait_pid given the OS response
to its os.waitpid call.  On ChildProcessError the result becomes
NOT_FOUND; on pid 0 the child is still alive and nothing changes; on a
status the registry entry is removed (del _children[pid]; the key is
present in every reachable state in which this branch runs) and
_handle_exitstatus captures _compute_returncode.  The source's
assert self.__pid > 0 is checked by the callers below; the blocking flag
only selects 0 versus WNOHANG and does not affect the state update. -/
def _wait_pid (blocking : Bool) (r : OsResp) (w : WaiterState) (reg : Reg) :
    WaiterState × Reg :=
  match w.pid with
  | none => (w, reg)
  | some p =>
    match r with
    | OsResp.childError => ({ w with result := some NOT_FOUND }, reg)
    | OsResp.stillAlive => (w, reg)
    | OsResp.exited status =>
      ({ w with result := some (Result.capture (_compute_returncode status)) },
       regDel reg p)

/-- Result of one step of wait(): the observable output, the waiter state
and registry afterwards, and how many os.waitpid status calls the step
performed. -/
structure StepR where
  out : WaitOut
  w : WaiterState
  reg : Reg
  probes : Nat
deriving DecidableEq, Repr

/-- Unwrapping a stored trio Result: a value is returned, an error is
re-raised. -/
def unwrapResult : Result → WaitOut
  | Result.value v => WaitOut.ret v
  | Result.error e => WaitOut.raised e

/-- Embedding of ProcessWaiter.wait() up to its first suspension point:
if a result is stored it is unwrapped at once; a missing pid raises
RuntimeError; otherwise one non-blocking _wait_pid probe runs (after its
assert that the pid is positive), and if still unresolved the call starts
the worker when __thread is None (_start_waiting: fresh unset event, new
thread) and suspends on the event, or returns through the event if it was
already set (unwrapping the absent result then raises). -/
def waitEnter (r : OsResp) (w : WaiterState) (reg : Reg) : StepR :=
  match w.result with
  | some res => { out := unwrapResult res, w := w, reg := reg, probes := 0 }
  | none =>
    match w.pid with
    | none => { out := WaitOut.misuse MisuseError.noPidToWait, w := w, reg := reg, probes := 0 }
    | some p =>
      if p ≤ 0 then { out := WaitOut.assertFail, w := w, reg := reg, probes := 0 }
      else
        let wr := _wait_pid false r w reg
        match wr.1.result with
        | some res => { out := unwrapResult res, w := wr.1, reg := wr.2, probes := 1 }
        | none =>
          if wr.1.thread then
            if wr.1.eventSet then
              { out := WaitOut.unwrapNone, w := wr.1, reg := wr.2, probes := 1 }
            else
              { out := WaitOut.suspendedOn, w := wr.1, reg := wr.2, probes := 1 }
          else
            { out := WaitOut.suspendedOn,
              w := { wr.1 with thread := true, eventSet := false },
              reg := wr.2, probes := 1 }

/-- Embedding of the worker body _wait_thread: one blocking _wait_pid,
then the recorded token schedules event.set on the scheduler thread. -/
def _wait_thread (r : OsResp) (w : WaiterState) (reg : Reg) : WaiterState × Reg :=
  let wr := _wait_pid true r w reg
  ({ wr.1 with eventSet := true }, wr.2)

/-- Embedding of the resumption of wait() after awaiting the event: when
the event is set, the stored result is unwrapped (raising if it is a
failure, failing on an absent result); otherwise the task stays
suspended. -/
def waitWake (w : WaiterState) (reg : Reg) : StepR :=
  if w.eventSet then
    match w.result with
    | some res => { out := unwrapResult res, w := w, reg := reg, probes := 0 }
    | none => { out := WaitOut.unwrapNone, w := w, reg := reg, probes := 0 }
  else { out := WaitOut.suspendedOn, w := w, reg := reg, probes := 0 }

/-- Embedding of the returncode property: None while no result is stored,
otherwise the stored result is unwrapped (re-raising failures).  It takes
no OS response because the source performs no status call here, and it
returns no state because it mutates nothing. -/
def returncode (w : WaiterState) : PeekOut :=
  match w.result with
  | none => PeekOut.sentinelNone
  | some (Result.value v) => PeekOut.ret v
  | some (Result.error e) => PeekOut.raised e

/-- Modelled from the spec: the spec states that the first returncode
peek of an unresolved waiter attempts a non-blocking status check
immediately.  This definition follows those words (for comparison with
the source's returncode, which performs no such check). -/
def returncode_specModel (r : OsResp) (w : WaiterState) (reg : Reg) :
    PeekOut × WaiterState × Reg :=
  match w.result with
  | some (Result.value v) => (PeekOut.ret v, w, reg)
  | some (Result.error e) => (PeekOut.raised e, w, reg)
  | none =>
    let wr := _wait_pid false r w reg
    match wr.1.result with
    | some (Result.value v) => (PeekOut.ret v, wr.1, wr.2)
    | some (Result.error e) => (PeekOut.raised e, wr.1, wr.2)
    | none => (PeekOut.sentinelNone, wr.1, wr.2)

/- ## Traces of operations on one waiter

The state relevant to the per-waiter claims is the waiter record plus the
registry; a trace interleaves wait() entries (each consuming the OS
response to its probe), worker-thread completions, and resumptions. -/

/-- One step acting on a waiter: entering wait() (with the OS response to
its non-blocking probe), the worker thread running its blocking check
(with that call's OS response), or a suspended wait() resuming. -/
inductive WOp where
  | enter (r : OsResp)
  | worker (r : OsResp)
  | wake
deriving DecidableEq, Repr

/-- Step semantics of one WOp on a waiter and the registry. -/
def stepW (w : WaiterState) (reg : Reg) (op : WOp) : StepR :=
  match op with
  | WOp.enter r => waitEnter r w reg
  | WOp.worker r =>
    let wr := _wait_thread r w reg
    { out := WaitOut.workerDone, w := wr.1, reg := wr.2, probes := 1 }
  | WOp.wake => waitWake w reg

/-- Number of worker-thread starts along a trace: a start is a step on
which the thread attribute flips from absent to present. -/
def countStarts (w : WaiterState) (reg : Reg) : List WOp → Nat
  | [] => 0
  | op :: rest =>
    let st := stepW w reg op
    (if !w.thread && st.w.thread then 1 else 0) + countStarts st.w st.reg rest

/-- A completed step's output agrees with the result stored when the step
finishes: a returned value or re-raised failure is exactly the unwrap of
the waiter's stored result at that moment. -/
def agreesOut (st : StepR) : Prop :=
  match st.out with
  | WaitOut.ret v => st.w.result = some (Result.value v)
  | WaitOut.raised e => st.w.result = some (Result.error e)
  | _ => True

def isChildErr : OsResp → Bool
  | OsResp.childError => true
  | _ => false

/-- A sequence of OS responses for waitpid calls on one pid is consistent
when nothing follows a reap except ChildProcessError: once a status has
been returned (the exit record is consumed) or the child was already
missing, every later call reports no such child. -/
def osConsistent : List OsResp → Bool
  | [] => true
  | OsResp.stillAlive :: rest => osConsistent rest
  | OsResp.exited _ :: rest => rest.all isChildErr
  | OsResp.childError :: rest => rest.all isChildErr

/- ## The process-wide system: waiter store plus registry

ProcessWaiter.__new__ consults _children; the weak-value dictionary drops
an entry when its waiter is garbage collected, which we model with an
explicit collection step and a set of dead indices. -/

/-- All waiter objects ever allocated (index = identity), the _children
registry, and the indices already garbage collected. -/
structure Sys where
  waiters : List WaiterState
  reg : Reg
  dead : List Nat
deriving DecidableEq, Repr

def wGet (s : Sys) (wid : Nat) : WaiterState :=
  s.waiters.getD wid initWaiter

/-- A waiter object is alive while it has been allocated and not yet
collected. -/
def aliveW (s : Sys) (wid : Nat) : Prop :=
  wid < s.waiters.length ∧ wid ∉ s.dead

/-- Garbage collection of an unreferenced waiter: the weak-value registry
drops every entry for it. -/
def gcCollect (wid : Nat) (s : Sys) : Sys :=
  { s with dead := wid :: s.dead,
           reg := s.reg.filter (fun e => e.2 != wid) }

/-- Embedding of ProcessWaiter(pid, _handle) on a non-Windows platform:
__new__ returns the cached instance for an int pid when _children has
one, else a fresh object; __init__ then calls _set_pid exactly when the
returned object has no pid yet.  The call returns the waiter's identity
or the RuntimeError raised, together with the system afterwards (a fresh
object is allocated even when its __init__ raises). -/
def constructW (pid : PyVal) (handle : Option Unit) (s : Sys) :
    Except MisuseError Nat × Sys :=
  let cached : Option Nat :=
    match pid with
    | PyVal.pyInt n => regGet s.reg n
    | _ => none
  match cached with
  | some wid =>
    let w := wGet s wid
    if w.pid.isSome then (Except.ok wid, s)
    else
      let sr := _set_pid pid handle wid w s.reg
      let s' : Sys := { s with waiters := s.waiters.set wid sr.w, reg := sr.reg }
      match sr.err with
      | some e => (Except.error e, s')
      | none => (Except.ok wid, s')
  | none =>
    let wid := s.waiters.length
    let sr := _set_pid pid handle wid initWaiter s.reg
    let s' : Sys := { s with waiters := s.waiters ++ [sr.w], reg := sr.reg }
    match sr.err with
    | some e => (Except.error e, s')
    | none => (Except.ok wid, s')

/-- Entering wait() on the waiter stored at an index of the system. -/
def sysWaitEnter (wid : Nat) (r : OsResp) (s : Sys) : WaitOut × Sys :=
  let st := waitEnter r (wGet s wid) s.reg
  (st.out, { s with waiters := s.waiters.set wid st.w, reg := st.reg })

/- ## Helper lemmas -/

theorem _wait_pid_thread (b : Bool) (r : OsResp) (w : WaiterState) (reg : Reg) :
    ((_wait_pid b r w reg).1).thread = w.thread := by
  cases hw : w.pid <;> cases r <;> simp [_wait_pid, hw]

theorem _wait_pid_pid (b : Bool) (r : OsResp) (w : WaiterState) (reg : Reg) :
    ((_wait_pid b r w reg).1).pid = w.pid := by
  cases hw : w.pid <;> cases r <;> simp [_wait_pid, hw]

theorem _wait_pid_eventSet (b : Bool) (r : OsResp) (w : WaiterState) (reg : Reg) :
    ((_wait_pid b r w reg).1).eventSet = w.eventSet := by
  cases hw : w.pid <;> cases r <;> simp [_wait_pid, hw]

theorem waitEnter_thread_mono (r : OsResp) (w : WaiterState) (reg : Reg)
    (h : w.thread = true) : (waitEnter r w reg).w.thread = true := by
  have ht := _wait_pid_thread false r w reg
  simp only [waitEnter]
  split
  · exact h
  · split
    · exact h
    · split
      · exact h
      · split
        · simpa [ht]
        · split
          · split
            · simpa [ht]
            · simpa [ht]
          · simp

theorem stepW_thread_mono (w : WaiterState) (reg : Reg) (op : WOp)
    (h : w.thread = true) : (stepW w reg op).w.thread = true := by
  cases op with
  | enter r => exact waitEnter_thread_mono r w reg h
  | worker r =>
    have ht := _wait_pid_thread true r w reg
    simp [stepW, _wait_thread, ht, h]
  | wake =>
    simp only [stepW, waitWake]
    split
    · split
      · exact h
      · exact h
    · exact h

theorem countStarts_le (ops : List WOp) : ∀ (w : WaiterState) (reg : Reg),
    countStarts w reg ops ≤ if w.thread then 0 else 1 := by
  induction ops with
  | nil => intro w reg; simp [countStarts]
  | cons op rest ih =>
    intro w reg
    simp only [countStarts]
    cases hw : w.thread with
    | true =>
      have hm := stepW_thread_mono w reg op hw
      have hr := ih (stepW w reg op).w (stepW w reg op).reg
      simp [hw, hm] at hr ⊢
      omega
    | false =>
      cases hs : (stepW w reg op).w.thread with
      | true =>
        have hr := ih (stepW w reg op).w (stepW w reg op).reg
        simp [hs] at hr
        simp [hw, hs]
        omega
      | false =>
        have hr := ih (stepW w reg op).w (stepW w reg op).reg
        simp [hs] at hr
        simp [hw, hs]
        omega

theorem stepW_agrees (w : WaiterState) (reg : Reg) (op : WOp) :
    agreesOut (stepW w reg op) := by
  obtain ⟨pd, res, th, ev⟩ := w
  cases op with
  | enter r =>
    cases res with
    | some rr => cases rr <;> simp [stepW, waitEnter, agreesOut, unwrapResult]
    | none =>
      cases pd with
      | none => simp [stepW, waitEnter, agreesOut]
      | some p =>
        by_cases hl : p ≤ 0
        · simp [stepW, waitEnter, agreesOut, hl]
        · cases r with
          | childError =>
            simp [stepW, waitEnter, _wait_pid, agreesOut, hl, NOT_FOUND, unwrapResult]
          | stillAlive =>
            cases th <;> cases ev <;>
              simp [stepW, waitEnter, _wait_pid, hl, agreesOut]
          | exited st =>
            cases hcr : _compute_returncode st with
            | ok v =>
              simp [stepW, waitEnter, _wait_pid, agreesOut, hl, hcr,
                Result.capture, unwrapResult]
            | error e =>
              simp [stepW, waitEnter, _wait_pid, agreesOut, hl, hcr,
                Result.capture, unwrapResult]
  | worker r => simp [stepW, agreesOut]
  | wake =>
    cases ev with
    | true =>
      cases res with
      | none => simp [stepW, waitWake, agreesOut]
      | some rr => cases rr <;> simp [stepW, waitWake, agreesOut, unwrapResult]
    | false => simp [stepW, waitWake, agreesOut]

/- ## Claims -/

/-- C1: for every raw POSIX wait status, _compute_returncode returns, in
this order of precedence, minus the terminating signal when the status
indicates death by signal, else the exit code on normal exit, else minus
the stop signal when stopped, and fails with UnknownStatus in every other
case; in particular exit code 0 maps to 0, exit code 7 (status 1792) to
7, and termination by signal 9 (status 9) to minus 9. -/
theorem claim_C1_decoder :
    (∀ s : Nat, WIFSIGNALED s = true →
      _compute_returncode s = Except.ok (-(WTERMSIG s : Int))) ∧
    (∀ s : Nat, WIFSIGNALED s = false → WIFEXITED s = true →
      _compute_returncode s = Except.ok ((WEXITSTATUS s : Int))) ∧
    (∀ s : Nat, WIFSIGNALED s = false → WIFEXITED s = false → WIFSTOPPED s = true →
      _compute_returncode s = Except.ok (-(WSTOPSIG s : Int))) ∧
    (∀ s : Nat, WIFSIGNALED s = false → WIFEXITED s = false → WIFSTOPPED s = false →
      _compute_returncode s = Except.error (WaitError.unknownStatus s)) ∧
    _compute_returncode 0 = Except.ok 0 ∧
    _compute_returncode 1792 = Except.ok 7 ∧
    _compute_returncode 9 = Except.ok (-9) := by
  refine ⟨?_, ?_, ?_, ?_, rfl, rfl, rfl⟩
  · intro s h
    simp [_compute_returncode, h]
  · intro s h1 h2
    simp [_compute_returncode, h1, h2]
  · intro s h1 h2 h3
    simp [_compute_returncode, h1, h2, h3]
  · intro s h1 h2 h3
    simp [_compute_returncode, h1, h2, h3]

/-- C1 witness: instantiating the decoder theorem at status 9 (death by
signal 9) and status 255 (no classification matches). -/
theorem claim_C1_witness :
    (WIFSIGNALED 9 = true ∧
      _compute_returncode 9 = Except.ok (-(WTERMSIG 9 : Int))) ∧
    (WIFSIGNALED 255 = false ∧ WIFEXITED 255 = false ∧ WIFSTOPPED 255 = false ∧
      _compute_returncode 255 = Except.error (WaitError.unknownStatus 255)) :=
  ⟨⟨by decide, claim_C1_decoder.1 9 (by decide)⟩,
   ⟨by decide, by decide, by decide,
    claim_C1_decoder.2.2.2.1 255 (by decide) (by decide) (by decide)⟩⟩

def cexW0 : WaiterState :=
  { pid := some 5, result := none, thread := false, eventSet := false }

def cexT1 : StepR := stepW cexW0 [] (WOp.enter OsResp.stillAlive)

def cexT2 : StepR := stepW cexT1.w cexT1.reg (WOp.enter (OsResp.exited 1792))

def cexT3 : StepR := stepW cexT2.w cexT2.reg (WOp.worker OsResp.childError)

def cexT4 : StepR := stepW cexT3.w cexT3.reg WOp.wake

/-- C2 counterexample: with a consistent sequence of OS responses, a
first wait() suspends and starts the worker, a second concurrent wait()
probes, reaps the child and returns outcome 7 -- so the outcome is
computed -- and then the worker's blocking check gets ChildProcessError
and overwrites the stored result with NOT_FOUND, so the first caller
observes the not-found failure instead of the identical outcome 7. -/
theorem claim_C2_counterexample :
    osConsistent [OsResp.stillAlive, OsResp.exited 1792, OsResp.childError] = true ∧
    cexT1.out = WaitOut.suspendedOn ∧ cexT1.w.thread = true ∧
    cexT2.out = WaitOut.ret 7 ∧ cexT2.w.result = some (Result.value 7) ∧
    cexT4.out = WaitOut.raised WaitError.notFound ∧
    WaitOut.raised WaitError.notFound ≠ WaitOut.ret 7 := by decide

/-- C2 amended: over any sequence of steps, at most one background
worker thread is ever started (the thread attribute flips from absent to
present at most once); and every wait() step that completes returns
exactly the unwrap of the result stored at that moment -- but the stored
result can be overwritten by the worker after a concurrent probe reaped
the child, so different callers need not observe the identical outcome. -/
theorem claim_C2_amended_thm :
    (∀ (w : WaiterState) (reg : Reg) (ops : List WOp),
      countStarts w reg ops ≤ 1) ∧
    (∀ (w : WaiterState) (reg : Reg) (op : WOp),
      agreesOut (stepW w reg op)) := by
  constructor
  · intro w reg ops
    have h := countStarts_le ops w reg
    cases hw : w.thread <;> rw [hw] at h <;> simp at h <;> omega
  · exact stepW_agrees

def sysA : Sys :=
  (constructW (PyVal.pyInt 5) none { waiters := [], reg := [], dead := [] }).2

def sysB : Sys := (sysWaitEnter 0 (OsResp.exited 0) sysA).2

/-- C3 counterexample: after the waiter for pid 5 reaps its child, the
registry entry is deleted (del in _wait_pid) although the waiter object
is still alive (never collected), so the next ProcessWaiter(5) lookup
creates a fresh instance (identity 1) instead of returning instance 0. -/
theorem claim_C3_counterexample :
    aliveW sysB 0 ∧ (wGet sysB 0).pid = some 5 ∧
    (constructW (PyVal.pyInt 5) none sysB).1 = Except.ok 1 ∧
    (1 : Nat) ≠ 0 :=
  ⟨by unfold aliveW; decide, by decide, rfl, by decide⟩

/-- C3 amended: while a Waiter for pid P is alive and still registered in
_children (the registry entry is removed as soon as the exit status is
reaped, even if the Waiter object itself remains alive, and when the
object is collected), every construction of ProcessWaiter(P) returns
that same instance and leaves the whole system unchanged. -/
theorem claim_C3_amended_thm :
    ∀ (s : Sys) (P : Int) (wid : Nat), regGet s.reg P = some wid →
      (wGet s wid).pid.isSome = true →
      (constructW (PyVal.pyInt P) none s).1 = Except.ok wid ∧
      (constructW (PyVal.pyInt P) none s).2 = s := by
  intro s P wid hreg hpid
  constructor <;> simp [constructW, hreg, hpid]

/-- C3 witness: in the system holding one live registered waiter for
pid 5 the amended theorem applies: the lookup returns instance 0 and
changes nothing. -/
theorem claim_C3_witness :
    (regGet sysA.reg 5 = some 0 ∧ (wGet sysA 0).pid.isSome = true) ∧
    (constructW (PyVal.pyInt 5) none sysA).1 = Except.ok 0 ∧
    (constructW (PyVal.pyInt 5) none sysA).2 = sysA :=
  ⟨⟨by decide, by decide⟩,
   (claim_C3_amended_thm sysA 5 0 (by decide) (by decide)).1,
   (claim_C3_amended_thm sysA 5 0 (by decide) (by decide)).2⟩

def cexW4 : WaiterState :=
  { pid := some 5, result := none, thread := true, eventSet := false }

/-- C4 counterexample: on a waiter whose worker has been started and
whose outcome is still unresolved, a further wait() call performs one
more non-blocking os.waitpid probe (probe count 1, not 0). -/
theorem claim_C4_counterexample :
    cexW4.thread = true ∧ cexW4.result = none ∧
    (waitEnter OsResp.stillAlive cexW4 []).probes = 1 ∧
    (1 : Nat) ≠ 0 := by decide

/-- C4 amended: once a worker has been started, no subsequent wait()
call ever starts another worker (the thread attribute stays present and
no trace from such a state contains a start); a wait() made after
resolution performs no probe and returns the stored outcome unchanged;
but a wait() made while the outcome is still unresolved performs one
more non-blocking probe before joining the completion signal. -/
theorem claim_C4_amended_thm :
    ∀ (w : WaiterState) (reg : Reg) (r : OsResp), w.thread = true →
      ((waitEnter r w reg).w.thread = true) ∧
      (∀ ops : List WOp, countStarts w reg ops = 0) ∧
      (∀ res : Result, w.result = some res →
        waitEnter r w reg =
          { out := unwrapResult res, w := w, reg := reg, probes := 0 }) ∧
      (∀ p : Int, w.result = none → w.pid = some p → 0 < p →
        (waitEnter r w reg).probes = 1) := by
  intro w reg r hth
  refine ⟨waitEnter_thread_mono r w reg hth, ?_, ?_, ?_⟩
  · intro ops
    have h := countStarts_le ops w reg
    rw [hth] at h
    simpa using h
  · intro res hres
    simp [waitEnter, hres]
  · intro p hres hp hpos
    have hnle : ¬ p ≤ 0 := by omega
    simp only [waitEnter, hres, hp]
    rw [if_neg hnle]
    split
    · rfl
    · split
      · split
        · rfl
        · rfl
      · rfl

/-- C4 witness: instantiating the amended theorem on a waiter with a
started worker: unresolved, the probe count of a further wait() is 1;
and with a stored outcome 7 the call returns it with no probe. -/
theorem claim_C4_witness :
    ((waitEnter OsResp.stillAlive cexW4 []).w.thread = true ∧
      countStarts cexW4 [] [WOp.enter OsResp.stillAlive] = 0 ∧
      (waitEnter OsResp.stillAlive cexW4 []).probes = 1) ∧
    waitEnter OsResp.stillAlive { cexW4 with result := some (Result.value 7) } [] =
      { out := WaitOut.ret 7, w := { cexW4 with result := some (Result.value 7) },
        reg := [], probes := 0 } :=
  ⟨⟨(claim_C4_amended_thm cexW4 [] OsResp.stillAlive rfl).1,
    (claim_C4_amended_thm cexW4 [] OsResp.stillAlive rfl).2.1 [WOp.enter OsResp.stillAlive],
    (claim_C4_amended_thm cexW4 [] OsResp.stillAlive rfl).2.2.2 5 rfl rfl (by decide)⟩,
   (claim_C4_amended_thm { cexW4 with result := some (Result.value 7) } []
      OsResp.stillAlive rfl).2.2.1 (Result.value 7) rfl⟩

/-- C5: on a waiter whose child has already exited when the first wait()
runs (the non-blocking probe's waitpid returns a status that decodes to
v), wait() returns v synchronously, stores it, performs exactly the one
probe, and never starts a background worker thread. -/
theorem claim_C5_probe_first :
    ∀ (w : WaiterState) (reg : Reg) (status : Nat) (v : Int) (p : Int),
      w.result = none → w.pid = some p → 0 < p → w.thread = false →
      _compute_returncode status = Except.ok v →
      (waitEnter (OsResp.exited status) w reg).out = WaitOut.ret v ∧
      (waitEnter (OsResp.exited status) w reg).w.thread = false ∧
      (waitEnter (OsResp.exited status) w reg).w.result = some (Result.value v) ∧
      (waitEnter (OsResp.exited status) w reg).probes = 1 := by
  intro w reg status v p hres hp hpos hth hcr
  have hnle : ¬ p ≤ 0 := by omega
  simp [waitEnter, _wait_pid, hres, hp, hnle, hcr, Result.capture, unwrapResult, hth]

/-- C5 witness: the exit, signal and stop cases at concrete statuses:
exit code 7 (status 1792), death by signal 9 (status 9), stopped by
signal 19 (status 4991), each resolved by the probe with no worker. -/
theorem claim_C5_witness :
    ((waitEnter (OsResp.exited 1792) cexW0 []).out = WaitOut.ret 7 ∧
      (waitEnter (OsResp.exited 1792) cexW0 []).w.thread = false) ∧
    ((waitEnter (OsResp.exited 9) cexW0 []).out = WaitOut.ret (-9) ∧
      (waitEnter (OsResp.exited 9) cexW0 []).w.thread = false) ∧
    ((waitEnter (OsResp.exited 4991) cexW0 []).out = WaitOut.ret (-19) ∧
      (waitEnter (OsResp.exited 4991) cexW0 []).w.thread = false) :=
  ⟨⟨(claim_C5_probe_first cexW0 [] 1792 7 5 rfl rfl (by decide) rfl rfl).1,
    (claim_C5_probe_first cexW0 [] 1792 7 5 rfl rfl (by decide) rfl rfl).2.1⟩,
   ⟨(claim_C5_probe_first cexW0 [] 9 (-9) 5 rfl rfl (by decide) rfl rfl).1,
    (claim_C5_probe_first cexW0 [] 9 (-9) 5 rfl rfl (by decide) rfl rfl).2.1⟩,
   ⟨(claim_C5_probe_first cexW0 [] 4991 (-19) 5 rfl rfl (by decide) rfl rfl).1,
    (claim_C5_probe_first cexW0 [] 4991 (-19) 5 rfl rfl (by decide) rfl rfl).2.1⟩⟩

/-- C6: when the OS status check reports no such child, the waiter's
result becomes NOT_FOUND and wait() raises it instead of suspending:
the non-blocking probe path returns the raised failure at once, and the
blocking path stores NOT_FOUND, sets the completion event, after which
the suspended caller re-raises the failure. -/
theorem claim_C6_not_found :
    ∀ (w : WaiterState) (reg : Reg) (p : Int),
      (w.result = none → w.pid = some p → 0 < p →
        (waitEnter OsResp.childError w reg).out = WaitOut.raised WaitError.notFound ∧
        (waitEnter OsResp.childError w reg).w.result = some NOT_FOUND ∧
        (waitEnter OsResp.childError w reg).out ≠ WaitOut.suspendedOn) ∧
      (w.pid = some p →
        (_wait_thread OsResp.childError w reg).1.result = some NOT_FOUND ∧
        (_wait_thread OsResp.childError w reg).1.eventSet = true ∧
        (waitWake (_wait_thread OsResp.childError w reg).1
          (_wait_thread OsResp.childError w reg).2).out =
            WaitOut.raised WaitError.notFound) := by
  intro w reg p
  constructor
  · intro hres hp hpos
    have hnle : ¬ p ≤ 0 := by omega
    simp [waitEnter, _wait_pid, hres, hp, hnle, NOT_FOUND, unwrapResult]
  · intro hp
    simp [_wait_thread, _wait_pid, hp, waitWake, NOT_FOUND, unwrapResult]

/-- C6 witness: both paths at the concrete unresolved waiter for pid 5. -/
theorem claim_C6_witness :
    ((waitEnter OsResp.childError cexW0 []).out = WaitOut.raised WaitError.notFound ∧
      (waitEnter OsResp.childError cexW0 []).out ≠ WaitOut.suspendedOn) ∧
    (waitWake (_wait_thread OsResp.childError cexW0 []).1
      (_wait_thread OsResp.childError cexW0 []).2).out =
        WaitOut.raised WaitError.notFound :=
  ⟨⟨((claim_C6_not_found cexW0 [] 5).1 rfl rfl (by decide)).1,
    ((claim_C6_not_found cexW0 [] 5).1 rfl rfl (by decide)).2.2⟩,
   ((claim_C6_not_found cexW0 [] 5).2 rfl).2.2⟩

/-- C7: calling wait() on a waiter whose outcome is already stored
returns the unwrap of the stored result immediately: the waiter state
and registry are unchanged, no os.waitpid call is made (probe count 0),
and the call does not suspend. -/
theorem claim_C7_idempotent :
    ∀ (w : WaiterState) (reg : Reg) (r : OsResp) (res : Result),
      w.result = some res →
      waitEnter r w reg = { out := unwrapResult res, w := w, reg := reg, probes := 0 } ∧
      unwrapResult res ≠ WaitOut.suspendedOn := by
  intro w reg r res hres
  constructor
  · simp [waitEnter, hres]
  · cases res <;> simp [unwrapResult]

/-- C7 witness: a resolved waiter with stored outcome 7 returns it
unchanged, with no probe and no suspension. -/
theorem claim_C7_witness :
    waitEnter OsResp.stillAlive
        { pid := some 5, result := some (Result.value 7), thread := false, eventSet := false }
        [] =
      { out := WaitOut.ret 7,
        w := { pid := some 5, result := some (Result.value 7), thread := false,
               eventSet := false },
        reg := [], probes := 0 } ∧
    unwrapResult (Result.value 7) ≠ WaitOut.suspendedOn :=
  ⟨(claim_C7_idempotent
      { pid := some 5, result := some (Result.value 7), thread := false, eventSet := false }
      [] OsResp.stillAlive (Result.value 7) rfl).1,
   (claim_C7_idempotent
      { pid := some 5, result := some (Result.value 7), thread := false, eventSet := false }
      [] OsResp.stillAlive (Result.value 7) rfl).2⟩

/-- C8: each misuse raises synchronously and leaves the state unchanged:
rebinding a pid raises pidAlreadySet with waiter and registry untouched;
a non-integer pid raises pidNotInteger with waiter and registry
untouched; wait() on a waiter with no pid raises noPidToWait with the
state untouched, no probe and no suspension. -/
theorem claim_C8_misuse :
    (∀ (pid : PyVal) (handle : Option Unit) (wid : Nat) (w : WaiterState) (reg : Reg),
      w.pid.isSome = true →
      _set_pid pid handle wid w reg =
        { err := some MisuseError.pidAlreadySet, w := w, reg := reg }) ∧
    (∀ (pid : PyVal) (handle : Option Unit) (wid : Nat) (w : WaiterState) (reg : Reg),
      w.pid = none → (∀ n : Int, pid ≠ PyVal.pyInt n) →
      _set_pid pid handle wid w reg =
        { err := some MisuseError.pidNotInteger, w := w, reg := reg }) ∧
    (∀ (r : OsResp) (w : WaiterState) (reg : Reg),
      w.result = none → w.pid = none →
      waitEnter r w reg =
        { out := WaitOut.misuse MisuseError.noPidToWait, w := w, reg := reg,
          probes := 0 }) := by
  refine ⟨?_, ?_, ?_⟩
  · intro pid handle wid w reg h
    simp [_set_pid, h]
  · intro pid handle wid w reg h hn
    cases pid with
    | pyInt n => exact absurd rfl (hn n)
    | pyNone => simp [_set_pid, h]
    | pyOther => simp [_set_pid, h]
  · intro r w reg hres hp
    simp [waitEnter, hres, hp]

/-- C8 witness: the three misuses at concrete states: rebinding the pid
of the waiter for pid 5, binding the Python None object as pid on a
fresh waiter, and waiting on a fresh waiter with no pid. -/
theorem claim_C8_witness :
    _set_pid (PyVal.pyInt 6) none 0 cexW0 [] =
      { err := some MisuseError.pidAlreadySet, w := cexW0, reg := [] } ∧
    _set_pid PyVal.pyNone none 0 initWaiter [] =
      { err := some MisuseError.pidNotInteger, w := initWaiter, reg := [] } ∧
    waitEnter OsResp.stillAlive initWaiter [] =
      { out := WaitOut.misuse MisuseError.noPidToWait, w := initWaiter, reg := [],
        probes := 0 } :=
  ⟨claim_C8_misuse.1 (PyVal.pyInt 6) none 0 cexW0 [] rfl,
   claim_C8_misuse.2.1 PyVal.pyNone none 0 initWaiter [] rfl
     (by intro n h; cases h),
   claim_C8_misuse.2.2 OsResp.stillAlive initWaiter [] rfl rfl⟩

def cexW9 : WaiterState :=
  { pid := some 7, result := none, thread := false, eventSet := false }

/-- C9 counterexample: on an unresolved waiter the returncode peek of
the source performs no status check at all and returns the None
sentinel, whereas a peek that attempted the claimed non-blocking check
(returncode_specModel, written from the spec's words) would observe the
exit and return 7: the source's peek is not the claimed probing peek. -/
theorem claim_C9_counterexample :
    returncode cexW9 = PeekOut.sentinelNone ∧
    (returncode_specModel (OsResp.exited 1792) cexW9 []).1 = PeekOut.ret 7 ∧
    PeekOut.sentinelNone ≠ PeekOut.ret 7 := by decide

/-- C9 amended: on the first wait() call of an unresolved waiter a
non-blocking status check is attempted immediately (exactly one probe);
the returncode peek, however, performs no status check at all: it is a
pure read that never suspends and never starts the worker, returning the
None sentinel while unresolved and the unwrap of the stored outcome
(re-raising stored failures) once resolved. -/
theorem claim_C9_amended_thm :
    (∀ (w : WaiterState) (reg : Reg) (r : OsResp) (p : Int),
      w.result = none → w.pid = some p → 0 < p →
      (waitEnter r w reg).probes = 1) ∧
    (∀ w : WaiterState, w.result = none → returncode w = PeekOut.sentinelNone) ∧
    (∀ (w : WaiterState) (v : Int), w.result = some (Result.value v) →
      returncode w = PeekOut.ret v) ∧
    (∀ (w : WaiterState) (e : WaitError), w.result = some (Result.error e) →
      returncode w = PeekOut.raised e) := by
  refine ⟨?_, ?_, ?_, ?_⟩
  · intro w reg r p hres hp hpos
    have hnle : ¬ p ≤ 0 := by omega
    simp only [waitEnter, hres, hp]
    rw [if_neg hnle]
    split
    · rfl
    · split
      · split
        · rfl
        · rfl
      · rfl
  · intro w h
    simp [returncode, h]
  · intro w v h
    simp [returncode, h]
  · intro w e h
    simp [returncode, h]

/-- C9 witness: the first wait() on the unresolved waiter for pid 7
performs one probe; its peek returns the sentinel; after resolution to
7 the peek returns 7, and with a stored failure the peek re-raises it. -/
theorem claim_C9_witness :
    (waitEnter OsResp.stillAlive cexW9 []).probes = 1 ∧
    returncode cexW9 = PeekOut.sentinelNone ∧
    returncode { cexW9 with result := some (Result.value 7) } = PeekOut.ret 7 ∧
    returncode { cexW9 with result := some (Result.error WaitError.notFound) } =
      PeekOut.raised WaitError.notFound :=
  ⟨claim_C9_amended_thm.1 cexW9 [] OsResp.stillAlive 7 rfl rfl (by decide),
   claim_C9_amended_thm.2.1 cexW9 rfl,
   claim_C9_amended_thm.2.2.1 { cexW9 with result := some (Result.value 7) } 7 rfl,
   claim_C9_amended_thm.2.2.2 { cexW9 with result := some (Result.error WaitError.notFound) }
     WaitError.notFound rfl⟩

/-- C10: on a non-Windows platform, constructing a ProcessWaiter that is
not already cached for its pid with a handle argument that is not None
raises RuntimeError (Process handles are a Windows thing). -/
theorem claim_C10_handle :
    ∀ (s : Sys) (n : Int), regGet s.reg n = none →
      (constructW (PyVal.pyInt n) (some ()) s).1 =
        Except.error MisuseError.handleOnWindowsOnly := by
  intro s n h
  simp [constructW, h, _set_pid, initWaiter]

/-- C10 witness: constructing a fresh waiter for pid 5 with a handle in
the empty system raises the handle error. -/
theorem claim_C10_witness :
    regGet ({ waiters := [], reg := [], dead := [] } : Sys).reg 5 = none ∧
    (constructW (PyVal.pyInt 5) (some ()) { waiters := [], reg := [], dead := [] }).1 =
      Except.error MisuseError.handleOnWindowsOnly :=
  ⟨by decide, claim_C10_handle { waiters := [], reg := [], dead := [] } 5 (by decide)⟩
